import Mathlib

/-!
Shallow embedding of `src/scripts/blender_import_vrm_pose.py`
(project89-reaction-forge).

The script applies a VRM pose JSON document to a named Blender armature:
it maps canonical VRM bone names to Blender bone names via the static
table `VRM_TO_BLENDER_BONES`, writes each valid rotation quaternion
(reordered from storage order (x, y, z, w) to Blender's (w, x, y, z))
into the corresponding pose bone, counts applied and skipped entries,
and optionally sets the armature object's Euler rotation from a
`sceneRotation` section given in degrees.

Blender state (`bpy.data.objects`, the active object, the interaction
mode, `view_layer.update()`) is modelled explicitly as a `Scene` value
threaded through the functions; printing of per-bone warnings is
modelled as a list of `Warning` values.
-/

namespace ReactionForge

/-- A quaternion in the component order consumed by Blender's
`pose_bone.rotation_quaternion`, i.e. `(w, x, y, z)`.  Components are
the JSON numbers, embedded as rationals. -/
structure Quat where
  w : ℚ
  x : ℚ
  y : ℚ
  z : ℚ
deriving DecidableEq, Repr

/-- An Euler rotation as assigned to `object.rotation_euler`:
three angles in radians plus the axis-order string (the script always
uses `"XYZ"`). -/
structure EulerRot where
  x : ℝ
  y : ℝ
  z : ℝ
  order : String

/-- A Blender object as far as the script observes it: its `type`
string (`"ARMATURE"` or anything else), its pose bones
(`object.pose.bones`, a name-keyed collection of settable rotation
quaternions), and its object-level `rotation_euler`. -/
structure Obj where
  type : String
  poseBones : List (String × Quat)
  rotationEuler : EulerRot

/-- The Blender state the script reads and writes: `bpy.data.objects`
(a name-keyed collection), the active object of the view layer, the
current interaction mode, and a counter of `view_layer.update()`
calls. -/
structure Scene where
  objects : List (String × Obj)
  activeObject : Option String
  mode : String
  viewUpdates : Nat

/-- `d.get k` on a Python dict / name-keyed Blender collection:
the first entry whose key equals `k`, if any. -/
def dictGet {α : Type} (d : List (String × α)) (k : String) : Option α :=
  (d.find? (fun p => p.1 == k)).map (fun p => p.2)

/-- Assignment `d[k] = v` on a name-keyed collection whose key `k` is
already present: replaces the value stored under `k`. -/
def dictSet {α : Type} (d : List (String × α)) (k : String) (v : α) :
    List (String × α) :=
  d.map (fun p => if p.1 == k then (p.1, v) else p)

/-- One entry of the `vrmPose` section: the script only reads its
`rotation` key (`bone_data.get('rotation')`), a JSON array of numbers
when present. -/
structure BoneData where
  rotation : Option (List ℚ)
deriving DecidableEq, Repr

/-- The parsed pose JSON document.  Both top-level keys are optional;
`vrmPose` maps canonical VRM bone names to `BoneData`, and
`sceneRotation` is a JSON object read through `.get('x', 0)` etc., so
it is kept as a key-value list. -/
structure PoseDocument where
  vrmPose : Option (List (String × BoneData))
  sceneRotation : Option (List (String × ℚ))

/-- The static VRM-to-Blender bone name table of the script, entry for
entry in source order. -/
def VRM_TO_BLENDER_BONES : List (String × String) :=
  [ -- Core
    ("hips", "Hips"),
    ("spine", "Spine"),
    ("chest", "Chest"),
    ("upperChest", "UpperChest"),
    ("neck", "Neck"),
    ("head", "Head"),
    -- Left Arm
    ("leftShoulder", "LeftShoulder"),
    ("leftUpperArm", "LeftUpperArm"),
    ("leftLowerArm", "LeftLowerArm"),
    ("leftHand", "LeftHand"),
    -- Right Arm
    ("rightShoulder", "RightShoulder"),
    ("rightUpperArm", "RightUpperArm"),
    ("rightLowerArm", "RightLowerArm"),
    ("rightHand", "RightHand"),
    -- Left Leg
    ("leftUpperLeg", "LeftUpperLeg"),
    ("leftLowerLeg", "LeftLowerLeg"),
    ("leftFoot", "LeftFoot"),
    ("leftToes", "LeftToes"),
    -- Right Leg
    ("rightUpperLeg", "RightUpperLeg"),
    ("rightLowerLeg", "RightLowerLeg"),
    ("rightFoot", "RightFoot"),
    ("rightToes", "RightToes"),
    -- Fingers (Left)
    ("leftThumbProximal", "LeftThumbProximal"),
    ("leftThumbIntermediate", "LeftThumbIntermediate"),
    ("leftThumbDistal", "LeftThumbDistal"),
    ("leftIndexProximal", "LeftIndexProximal"),
    ("leftIndexIntermediate", "LeftIndexIntermediate"),
    ("leftIndexDistal", "LeftIndexDistal"),
    ("leftMiddleProximal", "LeftMiddleProximal"),
    ("leftMiddleIntermediate", "LeftMiddleIntermediate"),
    ("leftMiddleDistal", "LeftMiddleDistal"),
    ("leftRingProximal", "LeftRingProximal"),
    ("leftRingIntermediate", "LeftRingIntermediate"),
    ("leftRingDistal", "LeftRingDistal"),
    ("leftLittleProximal", "LeftLittleProximal"),
    ("leftLittleIntermediate", "LeftLittleIntermediate"),
    ("leftLittleDistal", "LeftLittleDistal"),
    -- Fingers (Right)
    ("rightThumbProximal", "RightThumbProximal"),
    ("rightThumbIntermediate", "RightThumbIntermediate"),
    ("rightThumbDistal", "RightThumbDistal"),
    ("rightIndexProximal", "RightIndexProximal"),
    ("rightIndexIntermediate", "RightIndexIntermediate"),
    ("rightIndexDistal", "RightIndexDistal"),
    ("rightMiddleProximal", "RightMiddleProximal"),
    ("rightMiddleIntermediate", "RightMiddleIntermediate"),
    ("rightMiddleDistal", "RightMiddleDistal"),
    ("rightRingProximal", "RightRingProximal"),
    ("rightRingIntermediate", "RightRingIntermediate"),
    ("rightRingDistal", "RightRingDistal"),
    ("rightLittleProximal", "RightLittleProximal"),
    ("rightLittleIntermediate", "RightLittleIntermediate"),
    ("rightLittleDistal", "RightLittleDistal") ]

/-- The `ARMATURE_NAME` configuration constant. -/
def ARMATURE_NAME : String := "Armature"

/-- A warning printed by the bone loop: either no mapping exists for a
VRM bone name, or the mapped Blender bone is absent from the
armature. -/
inductive Warning where
  | noMapping (vrmName : String)
  | boneNotFound (blenderName : String)
deriving DecidableEq, Repr

/-- The state threaded through the bone loop of
`apply_vrm_pose_to_armature`: the armature's pose bones together with
`applied_count`, `skipped_count` and the warnings printed so far. -/
structure LoopState where
  bones : List (String × Quat)
  applied : Nat
  skipped : Nat
  warnings : List Warning
deriving DecidableEq, Repr

/-- `Quaternion((rotation[3], rotation[0], rotation[1], rotation[2]))`:
reorder a stored `[x, y, z, w]` array into `(w, x, y, z)` order.  Only
reached when the array has length 4, so the default is never used. -/
def quatFromList (r : List ℚ) : Quat :=
  { w := r.getD 3 0, x := r.getD 0 0, y := r.getD 1 0, z := r.getD 2 0 }

/-- One iteration of the `for vrm_bone_name, bone_data in
vrm_pose.items()` loop.  Mirrors the source checks in order: the
mapping lookup (`if not blender_bone_name`, falsy for a missing key
and for an empty string), the pose-bone lookup (`if not pose_bone`),
and the rotation validation (`if not rotation or len(rotation) != 4`,
falsy for a missing key and for an empty array). -/
def processEntry (st : LoopState) (entry : String × BoneData) : LoopState :=
  match dictGet VRM_TO_BLENDER_BONES entry.1 with
  | none =>
    { st with skipped := st.skipped + 1,
              warnings := st.warnings ++ [Warning.noMapping entry.1] }
  | some blender_bone_name =>
    if blender_bone_name = "" then
      { st with skipped := st.skipped + 1,
                warnings := st.warnings ++ [Warning.noMapping entry.1] }
    else
      match dictGet st.bones blender_bone_name with
      | none =>
        { st with skipped := st.skipped + 1,
                  warnings := st.warnings ++ [Warning.boneNotFound blender_bone_name] }
      | some _ =>
        match entry.2.rotation with
        | none => st
        | some rotation =>
          if rotation.isEmpty || rotation.length ≠ 4 then st
          else
            { st with
                bones := dictSet st.bones blender_bone_name (quatFromList rotation),
                applied := st.applied + 1 }

/-- The result of `apply_vrm_pose_to_armature`: the returned boolean,
the final `applied_count` / `skipped_count`, the warnings printed, and
the Blender state after the call. -/
structure ApplyResult where
  success : Bool
  applied : Nat
  skipped : Nat
  warnings : List Warning
  scene : Scene

/-- `apply_vrm_pose_to_armature(armature_name, pose_data)` over the
explicit `Scene` state.  Failure paths: armature not found, object not
of type `'ARMATURE'` (both before any state change), and missing or
empty `vrmPose` (after the active-object and mode changes).  On the
success path the bone loop runs and `view_layer.update()` is
called. -/
def apply_vrm_pose_to_armature (armature_name : String)
    (pose_data : PoseDocument) (s : Scene) : ApplyResult :=
  match dictGet s.objects armature_name with
  | none => ⟨false, 0, 0, [], s⟩
  | some armature_obj =>
    if armature_obj.type ≠ "ARMATURE" then ⟨false, 0, 0, [], s⟩
    else
      let s1 : Scene := { s with activeObject := some armature_name, mode := "POSE" }
      let vrm_pose := pose_data.vrmPose.getD []
      if vrm_pose.isEmpty then ⟨false, 0, 0, [], s1⟩
      else
        let st := vrm_pose.foldl processEntry ⟨armature_obj.poseBones, 0, 0, []⟩
        let s2 : Scene :=
          { s1 with objects := dictSet s1.objects armature_name
                      { armature_obj with poseBones := st.bones } }
        let s3 : Scene := { s2 with viewUpdates := s2.viewUpdates + 1 }
        ⟨true, st.applied, st.skipped, st.warnings, s3⟩

/-- `math.radians` applied to a JSON number: degrees to radians. -/
noncomputable def radians (d : ℚ) : ℝ := (d : ℝ) * Real.pi / 180

/-- `apply_scene_rotation(pose_data)` over the explicit `Scene` state,
with the `ARMATURE_NAME` global passed as a parameter.  Returns the
new state and the lines printed: nothing is printed when
`sceneRotation` is absent or empty or when the armature is not found;
on success the object's `rotation_euler` is set to the
degree-to-radian converted `(x, y, z)` in `'XYZ'` order and one
summary line is printed. -/
noncomputable def apply_scene_rotation (armature_name : String)
    (pose_data : PoseDocument) (s : Scene) : Scene × List String :=
  let scene_rotation := pose_data.sceneRotation.getD []
  if scene_rotation.isEmpty then (s, [])
  else
    match dictGet s.objects armature_name with
    | none => (s, [])
    | some armature_obj =>
      let x := radians ((dictGet scene_rotation "x").getD 0)
      let y := radians ((dictGet scene_rotation "y").getD 0)
      let z := radians ((dictGet scene_rotation "z").getD 0)
      ({ s with objects := dictSet s.objects armature_name
                  { armature_obj with rotationEuler := ⟨x, y, z, "XYZ"⟩ } },
       ["Applied scene rotation"])

/-- The scene-mutating part of `main()` after a successful load:
`apply_scene_rotation(pose_data)` followed by
`apply_vrm_pose_to_armature(ARMATURE_NAME, pose_data)`. -/
noncomputable def run (pose_data : PoseDocument) (s : Scene) : ApplyResult :=
  apply_vrm_pose_to_armature ARMATURE_NAME pose_data
    (apply_scene_rotation ARMATURE_NAME pose_data s).1


def coreBoneNames : List String :=
  ["hips", "spine", "chest", "upperChest", "neck", "head"]

def limbBoneNames : List String :=
  ["leftShoulder", "leftUpperArm", "leftLowerArm", "leftHand",
   "rightShoulder", "rightUpperArm", "rightLowerArm", "rightHand",
   "leftUpperLeg", "leftLowerLeg", "leftFoot", "leftToes",
   "rightUpperLeg", "rightLowerLeg", "rightFoot", "rightToes"]

def fingerBoneNames : List String :=
  (["left", "right"].flatMap fun side =>
    (["Thumb", "Index", "Middle", "Ring", "Little"].flatMap fun finger =>
      ["Proximal", "Intermediate", "Distal"].map fun seg =>
        side ++ finger ++ seg))

/-- C1: a pose entry with a mapped name, a bone present in the rig and a
rotation array `[x, y, z, w]` of length 4 sets that bone's rotation
quaternion to exactly the reordered components `(w, x, y, z)`,
replacing the prior rotation `q0` (which does not appear in the
result), and increments the applied tally. -/
theorem c1_applied_entry_overwrites_rotation
    (st : LoopState) (name bn : String) (bd : BoneData)
    (x y z w : ℚ) (q0 : Quat)
    (hmap : dictGet VRM_TO_BLENDER_BONES name = some bn)
    (hne : bn ≠ "")
    (hbone : dictGet st.bones bn = some q0)
    (hrot : bd.rotation = some [x, y, z, w]) :
    processEntry st (name, bd) =
      { st with bones := dictSet st.bones bn ⟨w, x, y, z⟩,
                applied := st.applied + 1 } := by
  simp [processEntry, hmap, hne, hbone, hrot, quatFromList, List.getD]

/-- Witness for C1 at a concrete input. -/
theorem c1_witness :
    processEntry ⟨[("Hips", ⟨1, 0, 0, 0⟩)], 0, 0, []⟩ ("hips", ⟨some [1, 2, 3, 4]⟩) =
      ⟨[("Hips", ⟨4, 1, 2, 3⟩)], 1, 0, []⟩ :=
  c1_applied_entry_overwrites_rotation ⟨[("Hips", ⟨1, 0, 0, 0⟩)], 0, 0, []⟩
    "hips" "Hips" ⟨some [1, 2, 3, 4]⟩ 1 2 3 4 ⟨1, 0, 0, 0⟩ rfl (by decide) rfl rfl

/-- C2 counterexample: the static map does not have 44 entries. -/
theorem c2_counterexample : VRM_TO_BLENDER_BONES.length ≠ 44 := by decide

/-- C2 amended: the keys are exactly the 6 core names, then 16 limb
names (4 per arm and per leg), then 30 finger names, 52 in all. -/
theorem c2_amended_map_coverage :
    VRM_TO_BLENDER_BONES.map Prod.fst =
      coreBoneNames ++ limbBoneNames ++ fingerBoneNames ∧
    coreBoneNames.length = 6 ∧ limbBoneNames.length = 16 ∧
    fingerBoneNames.length = 30 ∧ VRM_TO_BLENDER_BONES.length = 52 := by
  decide

/-- C3: a mapped entry whose bone is present but whose rotation is
absent or has length other than 4 leaves the loop state (bones and
both tallies) unchanged. -/
theorem c3_malformed_rotation_silently_skipped
    (st : LoopState) (name bn : String) (bd : BoneData) (q0 : Quat)
    (hmap : dictGet VRM_TO_BLENDER_BONES name = some bn)
    (hne : bn ≠ "")
    (hbone : dictGet st.bones bn = some q0)
    (hrot : bd.rotation = none ∨ ∃ r, bd.rotation = some r ∧ r.length ≠ 4) :
    processEntry st (name, bd) = st := by
  rcases hrot with hrot | ⟨r, hrot, hlen⟩
  · simp [processEntry, hmap, hne, hbone, hrot]
  · simp [processEntry, hmap, hne, hbone, hrot, hlen]

/-- Witness for C3 at a length-3 rotation. -/
theorem c3_witness :
    processEntry ⟨[("Hips", ⟨1, 0, 0, 0⟩)], 0, 0, []⟩ ("hips", ⟨some [1, 2, 3]⟩) =
      ⟨[("Hips", ⟨1, 0, 0, 0⟩)], 0, 0, []⟩ :=
  c3_malformed_rotation_silently_skipped ⟨[("Hips", ⟨1, 0, 0, 0⟩)], 0, 0, []⟩
    "hips" "Hips" ⟨some [1, 2, 3]⟩ ⟨1, 0, 0, 0⟩ rfl (by decide) rfl
    (Or.inr ⟨[1, 2, 3], rfl, by decide⟩)

/-- C5: an entry whose canonical name is unmapped, and an entry whose
mapped bone is absent from the rig, each log one warning, increment
skipped by one, leave applied and the bones untouched, and leave the
loop able to continue (the state is total, no failure). -/
theorem c5_unmapped_or_absent_bone_warns_and_skips
    (st : LoopState) (name : String) (bd : BoneData) :
    (dictGet VRM_TO_BLENDER_BONES name = none →
      processEntry st (name, bd) =
        { st with skipped := st.skipped + 1,
                  warnings := st.warnings ++ [Warning.noMapping name] }) ∧
    (∀ bn, dictGet VRM_TO_BLENDER_BONES name = some bn → bn ≠ "" →
      dictGet st.bones bn = none →
      processEntry st (name, bd) =
        { st with skipped := st.skipped + 1,
                  warnings := st.warnings ++ [Warning.boneNotFound bn] }) := by
  constructor
  · intro hmap
    simp [processEntry, hmap]
  · intro bn hmap hne hbone
    simp [processEntry, hmap, hne, hbone]

/-- Witness for C5: an unmapped name and a mapped name whose bone is
missing from the rig. -/
theorem c5_witness :
    processEntry ⟨[("Hips", ⟨1, 0, 0, 0⟩)], 0, 0, []⟩ ("nose", ⟨some [1, 2, 3, 4]⟩) =
      ⟨[("Hips", ⟨1, 0, 0, 0⟩)], 0, 1, [Warning.noMapping "nose"]⟩ ∧
    processEntry ⟨[], 0, 0, []⟩ ("hips", ⟨some [1, 2, 3, 4]⟩) =
      ⟨[], 0, 1, [Warning.boneNotFound "Hips"]⟩ :=
  ⟨(c5_unmapped_or_absent_bone_warns_and_skips _ "nose" _).1 rfl,
   (c5_unmapped_or_absent_bone_warns_and_skips _ "hips" _).2 "Hips" rfl (by decide) rfl⟩

/-- C8: every rigged name in the static map is non-empty, and no two
entries of the map share a rigged name (the map is injective). -/
theorem c8_map_nonempty_and_injective :
    (∀ p ∈ VRM_TO_BLENDER_BONES, p.2 ≠ "") ∧
    VRM_TO_BLENDER_BONES.Pairwise (fun p q => p.2 ≠ q.2) := by
  decide

/-- Witness for C8 at a concrete entry. -/
theorem c8_witness :
    ("hips", "Hips") ∈ VRM_TO_BLENDER_BONES ∧ "Hips" ≠ "" :=
  ⟨by decide, c8_map_nonempty_and_injective.1 ("hips", "Hips") (by decide)⟩

/-- C4: when the named object is absent from the scene, or present but
not of type `'ARMATURE'`, the pose applier returns `False` and the
whole scene — every object, every bone rotation, the active object,
the mode and the view-update counter — is exactly as before. -/
theorem c4_missing_or_wrong_type_rig_no_mutation
    (armature_name : String) (pose_data : PoseDocument) (s : Scene)
    (h : dictGet s.objects armature_name = none ∨
         ∃ obj, dictGet s.objects armature_name = some obj ∧ obj.type ≠ "ARMATURE") :
    (apply_vrm_pose_to_armature armature_name pose_data s).success = false ∧
    (apply_vrm_pose_to_armature armature_name pose_data s).scene = s := by
  rcases h with h | ⟨obj, hobj, htype⟩
  · simp [apply_vrm_pose_to_armature, h]
  · simp [apply_vrm_pose_to_armature, hobj, htype]

/-- Witness for C4: a scene that has no object at all. -/
theorem c4_witness :
    (apply_vrm_pose_to_armature "Armature" ⟨none, none⟩ ⟨[], none, "OBJECT", 0⟩).success
      = false ∧
    (apply_vrm_pose_to_armature "Armature" ⟨none, none⟩ ⟨[], none, "OBJECT", 0⟩).scene
      = ⟨[], none, "OBJECT", 0⟩ :=
  c4_missing_or_wrong_type_rig_no_mutation "Armature" ⟨none, none⟩
    ⟨[], none, "OBJECT", 0⟩ (Or.inl rfl)

/-- C6: a present, non-empty `sceneRotation` sets the found rig
object's Euler rotation to the degree-to-radian conversion of its
`x`, `y`, `z` values in `'XYZ'` order, replacing the prior
orientation; `radians 90 = π/2` and `radians 0 = 0`, so
`{x:90, y:0, z:0}` yields exactly `(π/2, 0, 0)`; and an absent
`sceneRotation` key leaves the scene exactly unchanged. -/
theorem c6_scene_rotation_converts_and_replaces
    (armature_name : String) (pose_data : PoseDocument) (s : Scene)
    (obj : Obj) (rot : List (String × ℚ)) :
    (pose_data.sceneRotation = some rot → rot ≠ [] →
      dictGet s.objects armature_name = some obj →
      (apply_scene_rotation armature_name pose_data s).1 =
        { s with
            objects :=
              dictSet s.objects armature_name
                { obj with
                    rotationEuler :=
                      ⟨radians ((dictGet rot "x").getD 0),
                       radians ((dictGet rot "y").getD 0),
                       radians ((dictGet rot "z").getD 0), "XYZ"⟩ } }) ∧
    (pose_data.sceneRotation = none →
      (apply_scene_rotation armature_name pose_data s).1 = s) ∧
    radians 90 = Real.pi / 2 ∧ radians 0 = 0 := by
  refine ⟨?_, ?_, ?_, ?_⟩
  · intro hrot hne hobj
    simp [apply_scene_rotation, hrot, hne, hobj]
  · intro hrot
    simp [apply_scene_rotation, hrot]
  · simp [radians]
    ring
  · simp [radians]

/-- Witness for C6 at `sceneRotation = {x:90, y:0, z:0}` on a one-object
scene. -/
theorem c6_witness :
    (apply_scene_rotation "Armature"
      ⟨none, some [("x", 90), ("y", 0), ("z", 0)]⟩
      ⟨[("Armature", ⟨"ARMATURE", [], ⟨1, 2, 3, "XYZ"⟩⟩)], none, "OBJECT", 0⟩).1 =
    ⟨[("Armature", ⟨"ARMATURE", [],
        ⟨radians 90, radians 0, radians 0, "XYZ"⟩⟩)], none, "OBJECT", 0⟩ :=
  (c6_scene_rotation_converts_and_replaces "Armature"
    ⟨none, some [("x", 90), ("y", 0), ("z", 0)]⟩
    ⟨[("Armature", ⟨"ARMATURE", [], ⟨1, 2, 3, "XYZ"⟩⟩)], none, "OBJECT", 0⟩
    ⟨"ARMATURE", [], ⟨1, 2, 3, "XYZ"⟩⟩
    [("x", 90), ("y", 0), ("z", 0)]).1 rfl (by decide) rfl

/-- C7: with the rig present and of armature type but no `vrmPose` key
in the document, the pose applier returns `False` having changed only
the active object and the mode (so no bone is mutated), while an
absent `sceneRotation` makes the scene-rotation applier the identity
(a silent no-op, with no failure value at all in its type). -/
theorem c7_missing_vrm_pose_hard_failure
    (armature_name : String) (pose_data : PoseDocument) (s : Scene) (obj : Obj)
    (hobj : dictGet s.objects armature_name = some obj)
    (htype : obj.type = "ARMATURE")
    (hpose : pose_data.vrmPose = none) :
    (apply_vrm_pose_to_armature armature_name pose_data s).success = false ∧
    (apply_vrm_pose_to_armature armature_name pose_data s).scene =
      { s with activeObject := some armature_name, mode := "POSE" } ∧
    (pose_data.sceneRotation = none →
      (apply_scene_rotation armature_name pose_data s).1 = s) := by
  refine ⟨?_, ?_, ?_⟩
  · simp [apply_vrm_pose_to_armature, hobj, htype, hpose]
  · simp [apply_vrm_pose_to_armature, hobj, htype, hpose]
  · intro hsr
    simp [apply_scene_rotation, hsr]

/-- Witness for C7 at a one-armature scene and an empty document. -/
theorem c7_witness :
    (apply_vrm_pose_to_armature "Armature" ⟨none, none⟩
      ⟨[("Armature", ⟨"ARMATURE", [("Hips", ⟨1, 0, 0, 0⟩)], ⟨0, 0, 0, "XYZ"⟩⟩)],
        none, "OBJECT", 0⟩).success = false ∧
    (apply_vrm_pose_to_armature "Armature" ⟨none, none⟩
      ⟨[("Armature", ⟨"ARMATURE", [("Hips", ⟨1, 0, 0, 0⟩)], ⟨0, 0, 0, "XYZ"⟩⟩)],
        none, "OBJECT", 0⟩).scene =
      ⟨[("Armature", ⟨"ARMATURE", [("Hips", ⟨1, 0, 0, 0⟩)], ⟨0, 0, 0, "XYZ"⟩⟩)],
        some "Armature", "POSE", 0⟩ ∧
    (apply_scene_rotation "Armature" ⟨none, none⟩
      ⟨[("Armature", ⟨"ARMATURE", [("Hips", ⟨1, 0, 0, 0⟩)], ⟨0, 0, 0, "XYZ"⟩⟩)],
        none, "OBJECT", 0⟩).1 =
      ⟨[("Armature", ⟨"ARMATURE", [("Hips", ⟨1, 0, 0, 0⟩)], ⟨0, 0, 0, "XYZ"⟩⟩)],
        none, "OBJECT", 0⟩ :=
  ⟨(c7_missing_vrm_pose_hard_failure "Armature" ⟨none, none⟩
      ⟨[("Armature", ⟨"ARMATURE", [("Hips", ⟨1, 0, 0, 0⟩)], ⟨0, 0, 0, "XYZ"⟩⟩)],
        none, "OBJECT", 0⟩ ⟨"ARMATURE", [("Hips", ⟨1, 0, 0, 0⟩)], ⟨0, 0, 0, "XYZ"⟩⟩
      rfl rfl rfl).1,
   (c7_missing_vrm_pose_hard_failure "Armature" ⟨none, none⟩
      ⟨[("Armature", ⟨"ARMATURE", [("Hips", ⟨1, 0, 0, 0⟩)], ⟨0, 0, 0, "XYZ"⟩⟩)],
        none, "OBJECT", 0⟩ ⟨"ARMATURE", [("Hips", ⟨1, 0, 0, 0⟩)], ⟨0, 0, 0, "XYZ"⟩⟩
      rfl rfl rfl).2.1,
   (c7_missing_vrm_pose_hard_failure "Armature" ⟨none, none⟩
      ⟨[("Armature", ⟨"ARMATURE", [("Hips", ⟨1, 0, 0, 0⟩)], ⟨0, 0, 0, "XYZ"⟩⟩)],
        none, "OBJECT", 0⟩ ⟨"ARMATURE", [("Hips", ⟨1, 0, 0, 0⟩)], ⟨0, 0, 0, "XYZ"⟩⟩
      rfl rfl rfl).2.2 rfl⟩

/-- C9: on the no-`vrmPose` failure path with a valid armature, the
applier has already set the active object to the rig and the mode to
`'POSE'`; the objects (hence every bone rotation) and the view-update
counter are unchanged, and the call reports failure. -/
theorem c9_mode_change_only_on_missing_pose
    (armature_name : String) (pose_data : PoseDocument) (s : Scene) (obj : Obj)
    (hobj : dictGet s.objects armature_name = some obj)
    (htype : obj.type = "ARMATURE")
    (hpose : pose_data.vrmPose = none) :
    (apply_vrm_pose_to_armature armature_name pose_data s).scene.activeObject
        = some armature_name ∧
    (apply_vrm_pose_to_armature armature_name pose_data s).scene.mode = "POSE" ∧
    (apply_vrm_pose_to_armature armature_name pose_data s).scene.objects
        = s.objects ∧
    (apply_vrm_pose_to_armature armature_name pose_data s).scene.viewUpdates
        = s.viewUpdates ∧
    (apply_vrm_pose_to_armature armature_name pose_data s).success = false := by
  refine ⟨?_, ?_, ?_, ?_, ?_⟩ <;>
    simp [apply_vrm_pose_to_armature, hobj, htype, hpose]

/-- Witness for C9 at a one-armature scene whose mode starts as
`'OBJECT'`. -/
theorem c9_witness :
    (apply_vrm_pose_to_armature "Armature" ⟨none, none⟩
      ⟨[("Armature", ⟨"ARMATURE", [], ⟨0, 0, 0, "XYZ"⟩⟩)], none, "OBJECT", 5⟩).scene.mode
      = "POSE" ∧
    (apply_vrm_pose_to_armature "Armature" ⟨none, none⟩
      ⟨[("Armature", ⟨"ARMATURE", [], ⟨0, 0, 0, "XYZ"⟩⟩)], none, "OBJECT", 5⟩).scene.viewUpdates
      = 5 :=
  ⟨(c9_mode_change_only_on_missing_pose "Armature" ⟨none, none⟩
      ⟨[("Armature", ⟨"ARMATURE", [], ⟨0, 0, 0, "XYZ"⟩⟩)], none, "OBJECT", 5⟩
      ⟨"ARMATURE", [], ⟨0, 0, 0, "XYZ"⟩⟩ rfl rfl rfl).2.1,
   (c9_mode_change_only_on_missing_pose "Armature" ⟨none, none⟩
      ⟨[("Armature", ⟨"ARMATURE", [], ⟨0, 0, 0, "XYZ"⟩⟩)], none, "OBJECT", 5⟩
      ⟨"ARMATURE", [], ⟨0, 0, 0, "XYZ"⟩⟩ rfl rfl rfl).2.2.2.1⟩

/-- C10: with a non-empty `sceneRotation` but no object named
`ARMATURE_NAME` in the scene, the scene-rotation applier returns the
scene unchanged and prints nothing (no warning, and its type carries
no failure value), and the run continues into the bone-application
step on the unchanged scene. -/
theorem c10_scene_rotation_missing_rig_silent
    (pose_data : PoseDocument) (s : Scene) (rot : List (String × ℚ))
    (hrot : pose_data.sceneRotation = some rot) (hne : rot ≠ [])
    (hobj : dictGet s.objects ARMATURE_NAME = none) :
    apply_scene_rotation ARMATURE_NAME pose_data s = (s, []) ∧
    run pose_data s = apply_vrm_pose_to_armature ARMATURE_NAME pose_data s := by
  have h1 : apply_scene_rotation ARMATURE_NAME pose_data s = (s, []) := by
    simp [apply_scene_rotation, hrot, hne, hobj]
  exact ⟨h1, by simp [run, h1]⟩

/-- Witness for C10: a scene holding only an object with another name. -/
theorem c10_witness :
    apply_scene_rotation ARMATURE_NAME
      ⟨none, some [("x", 90)]⟩
      ⟨[("Cube", ⟨"MESH", [], ⟨0, 0, 0, "XYZ"⟩⟩)], none, "OBJECT", 0⟩ =
      (⟨[("Cube", ⟨"MESH", [], ⟨0, 0, 0, "XYZ"⟩⟩)], none, "OBJECT", 0⟩, []) ∧
    run ⟨none, some [("x", 90)]⟩
      ⟨[("Cube", ⟨"MESH", [], ⟨0, 0, 0, "XYZ"⟩⟩)], none, "OBJECT", 0⟩ =
      apply_vrm_pose_to_armature ARMATURE_NAME ⟨none, some [("x", 90)]⟩
        ⟨[("Cube", ⟨"MESH", [], ⟨0, 0, 0, "XYZ"⟩⟩)], none, "OBJECT", 0⟩ :=
  c10_scene_rotation_missing_rig_silent ⟨none, some [("x", 90)]⟩
    ⟨[("Cube", ⟨"MESH", [], ⟨0, 0, 0, "XYZ"⟩⟩)], none, "OBJECT", 0⟩
    [("x", 90)] rfl (by decide) rfl

end ReactionForge
